import Mathlib

/-!
Shallow embedding, in Lean 4, of the behaviourally relevant parts of the
llm-training-platform repository (a Python code base), together with theorems
checking the natural-language specification against the code.

Python strings are modelled as `List Char` (a sequence of code points),
Python `int` as `ℤ` or `ℕ` where the context keeps values nonnegative, and
Python `float` literals appearing in the code (0.9, 0.95, 5e-5, 0.7) as the
rationals they denote; none of the verified properties depends on binary
floating-point rounding.  Python dicts keyed by strings are modelled as
association lists with first-key-wins lookup and in-place update.  Regular
expressions used by the chunking service are compiled by hand into
executable scanners; the scanners take an explicit fuel argument equal to
the length of the scanned string (each step consumes at least one character,
so the fuel never runs out on the initial call).
-/

/-! ### Python-level primitives -/

/-- Python `str.isspace`-class characters in the ASCII range
(` `, `\t`, `\n`, `\v`, `\f`, `\r`); the regex class `\s`.  The repository
only ever chunks text where the distinction with non-ASCII whitespace does
not arise in any claim. -/
def pyIsSpace (c : Char) : Bool :=
  c = ' ' || (9 ≤ c.toNat && c.toNat ≤ 13)

/-- The regex class `\w` (ASCII fragment): letters, digits, underscore. -/
def isWordChar (c : Char) : Bool :=
  c.isAlphanum || c = '_'

/-- Truthiness of `s.strip()`: the string contains a non-whitespace char. -/
def hasNonSpace (l : List Char) : Bool :=
  l.any (fun c => !(pyIsSpace c))

/-- Python `range(0, n, step)` for `step > 0` (the only way the code calls
it): the multiples of `step` below `n`.  For `step = 0` Python raises
`ValueError`; the model returns `[]`, and no claim touches that case. -/
def pyRange (n step : ℕ) : List ℕ :=
  (List.range ((n + step - 1) / step)).map (· * step)

/-- Python slice `s[i : i + k]`. -/
def pySlice (l : List Char) (i k : ℕ) : List Char :=
  (l.drop i).take k

/-- Python slice `s[-k:]` for `k > 0`: the last `k` characters (the whole
string when `k ≥ len(s)`). -/
def pyTakeRight (l : List Char) (k : ℕ) : List Char :=
  l.drop (l.length - k)

/-- Python slice `s[i:]` for a possibly negative `i`
(start = `max 0 (len + i)` when `i < 0`, else `min i len`). -/
def pySliceFromInt (l : List Char) (i : ℤ) : List Char :=
  if i < 0 then l.drop (l.length - i.natAbs) else l.drop i.toNat

/-- Python `str.split()` with no argument: split on whitespace runs,
dropping empty pieces.  `acc` holds the current word reversed. -/
def pySplitWsAux : List Char → List Char → List (List Char)
  | [], acc => if acc.isEmpty then [] else [acc.reverse]
  | c :: cs, acc =>
    if pyIsSpace c then
      if acc.isEmpty then pySplitWsAux cs [] else acc.reverse :: pySplitWsAux cs []
    else
      pySplitWsAux cs (c :: acc)

def pyWhitespaceSplit (l : List Char) : List (List Char) :=
  pySplitWsAux l []

/-- Python `" ".join(words)`. -/
def joinWith (sep : List Char) : List (List Char) → List Char
  | [] => []
  | [w] => w
  | w :: ws => w ++ sep ++ joinWith sep ws

/-- Count of leading characters satisfying `p`. -/
def countWhile (p : Char → Bool) : List Char → ℕ
  | [] => 0
  | c :: cs => if p c then countWhile p cs + 1 else 0

/-- Index of the last occurrence of `c` in `l`, if any. -/
def lastIdxOf (c : Char) (l : List Char) : Option ℕ :=
  (((List.range l.length).zip l).filter (fun p => p.2 = c)).getLast?.map Prod.fst

/-! ### The chunking service
(src/llm-training-platform/src/data_structuring/chunking/chunking_service.py) -/

/-- `ChunkStrategy` from src/data_structuring/api/schemas.py. -/
inductive ChunkStrategy where
  | FIXED_SIZE
  | SENTENCE
  | PARAGRAPH
  | SEMANTIC
deriving DecidableEq

namespace ChunkingService

/-- `step_size` computed by `_chunk_by_fixed_size`: `chunk_size -
chunk_overlap`, falling back to `chunk_size` when that is `≤ 0`. -/
def step_size (chunk_size chunk_overlap : ℕ) : ℕ :=
  if chunk_size - chunk_overlap = 0 then chunk_size else chunk_size - chunk_overlap

/-- `ChunkingService._chunk_by_fixed_size`: slices `text[i : i + chunk_size]`
for `i = 0, step, 2*step, ...`, keeping a slice iff `chunk.strip()` is
truthy. -/
def chunk_by_fixed_size (text : List Char) (chunk_size chunk_overlap : ℕ) : List (List Char) :=
  ((pyRange text.length (step_size chunk_size chunk_overlap)).map
      (fun i => pySlice text i chunk_size)).filter hasNonSpace

/-- The abbreviation alternatives of the `re.sub` pattern
`(Mr\.|Mrs\.|Dr\.|Prof\.|etc\.)` in `_split_into_sentences` (the
alternatives are mutually exclusive on any text position, so the
alternation order is immaterial). -/
def abbrevs : List (List Char) :=
  [['M','r','.'], ['M','r','s','.'], ['D','r','.'], ['P','r','o','f','.'], ['e','t','c','.']]

def pointTag : List Char := ['<','P','O','I','N','T','>']

/-- `re.sub(r'(Mr\.|Mrs\.|Dr\.|Prof\.|etc\.)', r'\1<POINT>', text)`:
left-to-right, non-overlapping; each match is kept and `<POINT>` is
appended after it.  Fuel = length of the remaining text. -/
def protectPoints : ℕ → List Char → List Char
  | 0, l => l
  | fuel + 1, [] => []
  | fuel + 1, c :: cs =>
    match abbrevs.find? (fun a => a.isPrefixOf (c :: cs)) with
    | some a => a ++ pointTag ++ protectPoints fuel ((c :: cs).drop a.length)
    | none => c :: protectPoints fuel cs

/-- `re.sub(r'<POINT>', '.', s)`: replace every occurrence of `pat` by
`rep`, scanning left to right. -/
def pyReplace (pat rep : List Char) : ℕ → List Char → List Char
  | 0, l => l
  | fuel + 1, [] => []
  | fuel + 1, c :: cs =>
    if pat.isPrefixOf (c :: cs) then rep ++ pyReplace pat rep fuel ((c :: cs).drop pat.length)
    else c :: pyReplace pat rep fuel cs

/-- One-character-wide match of the sentence-splitting pattern
`(?<!\w\.\w.)(?<![A-Z][a-z]\.)(?<=\.|\?|\!)\s` at a position whose
preceding characters, nearest first, are `prev` and whose character is
`c`.  The lookbehinds inspect the subject string itself, so `prev` is the
full reversed prefix of the (protected) text. -/
def isSentenceBoundary (prev : List Char) (c : Char) : Bool :=
  pyIsSpace c &&
  (match prev with
   | [] => false
   | p1 :: rest1 =>
     (p1 = '.' || p1 = '?' || p1 = '!') &&
     -- negative lookbehind (?<!\w\.\w.) : the four preceding characters are
     -- word, '.', word, any-non-newline
     !(match rest1 with
       | p2 :: p3 :: p4 :: _ => isWordChar p4 && p3 = '.' && isWordChar p2 && !(p1 = '\n')
       | _ => false) &&
     -- negative lookbehind (?<![A-Z][a-z]\.) : upper, lower, '.'
     !(match rest1 with
       | p2 :: p3 :: _ => p3.isUpper && p2.isLower && p1 = '.'
       | _ => false))

/-- `re.split` with the sentence pattern: every matching (single, consumed)
whitespace character separates two pieces.  `prev` is the reversed prefix
of the whole scanned string, `acc` the current piece reversed. -/
def splitSentencesCore : List Char → List Char → List Char → List (List Char)
  | _, acc, [] => [acc.reverse]
  | prev, acc, c :: rest =>
    if isSentenceBoundary prev c then
      acc.reverse :: splitSentencesCore (c :: prev) [] rest
    else
      splitSentencesCore (c :: prev) (c :: acc) rest

/-- `ChunkingService._split_into_sentences`. -/
def split_into_sentences (text : List Char) : List (List Char) :=
  let protectedText := protectPoints text.length text
  let sentences := splitSentencesCore [] [] protectedText
  let sentences := sentences.map (fun s => pyReplace pointTag ['.'] s.length s)
  sentences.filter hasNonSpace

/-- End positions of the matches of `re.finditer(r'[.!?]\s+', s)`:
a punctuation character followed by a maximal (greedy) run of
whitespace; matches cannot overlap.  `i` is the index of the head of the
remaining text. -/
def sentBoundaryEnds : ℕ → ℕ → List Char → List ℕ
  | 0, _, _ => []
  | fuel + 1, _, [] => []
  | fuel + 1, i, c :: cs =>
    if (c = '.' || c = '!' || c = '?') &&
        (match cs with | d :: _ => pyIsSpace d | [] => false) then
      let k := countWhile pyIsSpace cs
      (i + 1 + k) :: sentBoundaryEnds fuel (i + 1 + k) (cs.drop k)
    else
      sentBoundaryEnds fuel (i + 1) cs

/-- `.end()` of the last match of `[.!?]\s+` in `l`, if any. -/
def lastSentBoundaryEnd (l : List Char) : Option ℕ :=
  (sentBoundaryEnds l.length 0 l).getLast?

/-- The loop body of `_chunk_by_sentence`, processing one sentence against
the state `(chunks, current_chunk)`. -/
def chunkBySentenceStep (chunk_size chunk_overlap : ℕ)
    (st : List (List Char) × List Char) (sentence : List Char) :
    List (List Char) × List Char :=
  let chunks := st.1
  let cur := st.2
  let flushed : List (List Char) × List Char :=
    if chunk_size < cur.length + sentence.length ∧ cur ≠ [] then
      let chunks := chunks ++ [cur]
      let cur :=
        if 0 < chunk_overlap then
          let overlapText := pyTakeRight cur chunk_overlap
          match lastSentBoundaryEnd overlapText with
          | some lastB => pySliceFromInt cur ((lastB : ℤ) - (chunk_overlap : ℤ))
          | none =>
            let words := pyWhitespaceSplit overlapText
            if words ≠ [] then
              joinWith [' '] (words.drop (words.length - min 5 words.length))
            else []
        else []
      (chunks, cur)
    else (chunks, cur)
  let cur1 := flushed.2
  let cur2 := if cur1 ≠ [] ∧ cur1.getLast? ≠ some ' ' then cur1 ++ [' '] else cur1
  (flushed.1, cur2 ++ sentence)

/-- `ChunkingService._chunk_by_sentence`. -/
def chunk_by_sentence (text : List Char) (chunk_size chunk_overlap : ℕ) : List (List Char) :=
  let sentences := split_into_sentences text
  let r := sentences.foldl (chunkBySentenceStep chunk_size chunk_overlap) ([], [])
  if hasNonSpace r.2 then r.1 ++ [r.2] else r.1

/-- Greedy match of `\n\s*\n` at the head of `l`: a newline, then as many
whitespace characters as possible subject to the final character being a
newline.  Returns the total matched length. -/
def paraBoundaryLen (l : List Char) : Option ℕ :=
  match l with
  | c :: rest =>
    if c = '\n' then
      let m := countWhile pyIsSpace rest
      match lastIdxOf '\n' (rest.take m) with
      | some t => some (1 + t + 1)
      | none => none
    else none
  | [] => none

/-- `re.split(r'\n\s*\n', text)` (left-to-right, non-overlapping). -/
def splitParasCore : ℕ → List Char → List Char → List (List Char)
  | 0, acc, rest => [acc.reverse ++ rest]
  | fuel + 1, acc, [] => [acc.reverse]
  | fuel + 1, acc, c :: cs =>
    match paraBoundaryLen (c :: cs) with
    | some k => acc.reverse :: splitParasCore fuel [] ((c :: cs).drop k)
    | none => splitParasCore fuel (c :: acc) cs

/-- `ChunkingService._split_into_paragraphs`. -/
def split_into_paragraphs (text : List Char) : List (List Char) :=
  (splitParasCore text.length [] text).filter hasNonSpace

/-- End positions of the matches of `re.finditer(r'\n\s*\n', s)`. -/
def paraBoundaryEnds : ℕ → ℕ → List Char → List ℕ
  | 0, _, _ => []
  | fuel + 1, _, [] => []
  | fuel + 1, i, c :: cs =>
    match paraBoundaryLen (c :: cs) with
    | some k => (i + k) :: paraBoundaryEnds fuel (i + k) ((c :: cs).drop k)
    | none => paraBoundaryEnds fuel (i + 1) cs

def lastParaBoundaryEnd (l : List Char) : Option ℕ :=
  (paraBoundaryEnds l.length 0 l).getLast?

/-- `s.endswith("\n\n")`. -/
def endsWithTwoNl (l : List Char) : Bool :=
  l.reverse.take 2 = ['\n', '\n']

/-- The loop body of `_chunk_by_paragraph`. -/
def chunkByParagraphStep (chunk_size chunk_overlap : ℕ)
    (st : List (List Char) × List Char) (paragraph : List Char) :
    List (List Char) × List Char :=
  let chunks := st.1
  let cur := st.2
  let flushed : List (List Char) × List Char :=
    if chunk_size < cur.length + paragraph.length ∧ cur ≠ [] then
      let chunks := chunks ++ [cur]
      let cur :=
        if 0 < chunk_overlap then
          let overlapText := pyTakeRight cur chunk_overlap
          match lastParaBoundaryEnd overlapText with
          | some lastB => pySliceFromInt cur ((lastB : ℤ) - (chunk_overlap : ℤ))
          | none =>
            let sentences := split_into_sentences overlapText
            if sentences ≠ [] then sentences.getLast?.getD [] else []
        else []
      (chunks, cur)
    else (chunks, cur)
  let cur1 := flushed.2
  let cur2 := if cur1 ≠ [] ∧ ¬ endsWithTwoNl cur1 then cur1 ++ ['\n', '\n'] else cur1
  (flushed.1, cur2 ++ paragraph)

/-- `ChunkingService._chunk_by_paragraph`. -/
def chunk_by_paragraph (text : List Char) (chunk_size chunk_overlap : ℕ) : List (List Char) :=
  let paragraphs := split_into_paragraphs text
  let r := paragraphs.foldl (chunkByParagraphStep chunk_size chunk_overlap) ([], [])
  if hasNonSpace r.2 then r.1 ++ [r.2] else r.1

/-- `ChunkingService._chunk_by_semantic`: the source logs that semantic
chunking is not fully implemented and falls back to `_chunk_by_sentence`. -/
def chunk_by_semantic (text : List Char) (chunk_size chunk_overlap : ℕ) : List (List Char) :=
  chunk_by_sentence text chunk_size chunk_overlap

/-- `ChunkingService.chunk_text`: empty text yields `[]`; otherwise dispatch
on the strategy.  (The source's final `else` branch, defaulting to fixed
size, is unreachable: the four enum members are matched exhaustively.) -/
def chunk_text (text : List Char) (chunk_size chunk_overlap : ℕ)
    (strategy : ChunkStrategy) : List (List Char) :=
  if text = [] then []
  else
    match strategy with
    | .FIXED_SIZE => chunk_by_fixed_size text chunk_size chunk_overlap
    | .SENTENCE => chunk_by_sentence text chunk_size chunk_overlap
    | .PARAGRAPH => chunk_by_paragraph text chunk_size chunk_overlap
    | .SEMANTIC => chunk_by_semantic text chunk_size chunk_overlap

end ChunkingService

/-! ### Dicts (Python `dict` keyed by strings, insertion-ordered) -/

def dictGet {α : Type} (d : List (String × α)) (k : String) : Option α :=
  (d.find? (fun p => p.1 = k)).map Prod.snd

def dictContains {α : Type} (d : List (String × α)) (k : String) : Bool :=
  (dictGet d k).isSome

/-- `d[k] = v`: overwrite in place if the key exists, else append. -/
def dictSet {α : Type} (d : List (String × α)) (k : String) (v : α) : List (String × α) :=
  if dictContains d k then d.map (fun p => if p.1 = k then (k, v) else p)
  else d ++ [(k, v)]

/-- `del d[k]`. -/
def dictDel {α : Type} (d : List (String × α)) (k : String) : List (String × α) :=
  d.filter (fun p => !(p.1 = k))

def dictKeys {α : Type} (d : List (String × α)) : List String :=
  d.map Prod.fst

/-- `a.update(b)` / `{**a, **b}`. -/
def pyUpdate {α : Type} (d e : List (String × α)) : List (String × α) :=
  e.foldl (fun acc p => dictSet acc p.1 p.2) d

/-! ### Status and type enums (src/model_training/api/schemas.py,
src/agent_deployment/api/schemas.py) -/

inductive TrainingType where
  | full_fine_tuning
  | lora
  | qlora
  | peft
deriving DecidableEq

inductive TrainingStatus where
  | pending
  | preparing
  | running
  | completed
  | failed
  | cancelled
deriving DecidableEq

inductive ModelStatus where
  | created
  | training
  | ready
  | failed
  | archived
deriving DecidableEq

inductive AgentType where
  | fine_tuned
  | rag
deriving DecidableEq

inductive AgentStatus where
  | created
  | deploying
  | deployed
  | failed
  | stopped
deriving DecidableEq

/-! ### The application settings object
(src/common/config/settings.py) -/

/-- A value held by one of the attributes of the module-level `settings`
object: its class `Settings` declares four string fields and nine nested
sub-settings objects, and nothing else, so no top-level attribute is an
integer. -/
inductive SettingsVal where
  | strVal (s : String)
  | subSettings (name : String)
deriving DecidableEq

/-- The attributes declared on `Settings` (pydantic fields).  In
particular there is no `MAX_DEPLOYED_AGENTS` and no
`AGENT_TIMEOUT_SECONDS` attribute: those limits live on the nested
`AgentSettings` object as `settings.agent.max_deployed_agents` (default 5)
and `settings.agent.agent_timeout_seconds` (default 30). -/
def settingsAttrs : List (String × SettingsVal) :=
  [("app_name", .strVal "LLM Training Platform"),
   ("version", .strVal "1.0.0"),
   ("description", .strVal "A privacy-focused on-premise platform for training and deploying AI agents using organization documents."),
   ("environment", .strVal "development"),
   ("db", .subSettings "db"), ("api", .subSettings "api"),
   ("security", .subSettings "security"), ("storage", .subSettings "storage"),
   ("ocr", .subSettings "ocr"), ("log", .subSettings "log"),
   ("model", .subSettings "model"), ("vector_db", .subSettings "vector_db"),
   ("agent", .subSettings "agent")]

/-- Attribute access `settings.<name>`: a missing attribute raises
`AttributeError` (modelled as `Except.error`). -/
def settingsGetAttr (name : String) : Except String SettingsVal :=
  match dictGet settingsAttrs name with
  | some v => Except.ok v
  | none => Except.error ("AttributeError: Settings object has no attribute " ++ name)

/-- Coercion of a settings attribute to an integer for use in an
arithmetic comparison.  No attribute of `Settings` is an integer (strings
and sub-settings objects are the only values), so this is always `none`;
comparing such a value with an `int` would raise `TypeError`. -/
def settingsValToInt : SettingsVal → Option ℤ
  | .strVal _ => none
  | .subSettings _ => none

/-- `AgentSettings` (nested under `settings.agent`), with its declared
defaults; recorded here to document the intended limits that the agent
manager fails to read. -/
structure AgentSettings where
  max_deployed_agents : ℤ := 5
  agent_timeout_seconds : ℤ := 30

def agentSettingsDefaults : AgentSettings := {}

/-! ### The training manager
(src/model_training/training/training_manager.py).

The training-job row and the model row live in the database behind
`ModelRegistry` (src/model_training/registry/model_registry.py); the
records themselves (`src.model_training.models.model`) are not among the
source files, so their fields are taken from how the registry and the
manager read and write them.  The thread's body is modelled as a pure
function of the job row, the model row, and the stop event (modelled as a
predicate on the step counter: `stop s` holds iff the event is set when
step `s` is examined); `time.sleep(0.1)` only consumes wall-clock time and
is dropped. -/

structure TrainMetrics where
  loss : ℚ
  learning_rate : ℚ
  step : ℕ
  total_steps : ℕ
deriving DecidableEq

/-- Modelled from the spec: a Training Job is "a database record whose
execution is a background thread that sleeps and writes fabricated
progress percentages"; the record's fields are the ones
`ModelRegistry.update_training_job` writes. -/
structure TrainingJobRec where
  status : TrainingStatus
  progress : ℚ
  metrics : Option TrainMetrics
  error_message : Option String
deriving DecidableEq

/-- The slice of database state a training run touches: the job row and
the status of its model row. -/
structure TrainingDb where
  job : TrainingJobRec
  modelStatus : ModelStatus
deriving DecidableEq

/-- One call to `ModelRegistry.update_training_job` (the fields it was
passed; `None` arguments leave the row unchanged). -/
structure RegistryWrite where
  status : Option TrainingStatus
  progress : Option ℚ
  metrics : Option TrainMetrics
  error_message : Option String
deriving DecidableEq

/-- `ModelRegistry.update_training_job` applied to the job row (assumed
present in the database): each non-`None` argument overwrites the
corresponding field, and a `COMPLETED`/`FAILED` status also flips the
model row to `READY`/`FAILED`. -/
def update_training_job (db : TrainingDb) (w : RegistryWrite) : TrainingDb :=
  let ms := match w.status with
    | some TrainingStatus.completed => ModelStatus.ready
    | some TrainingStatus.failed => ModelStatus.failed
    | some _ => db.modelStatus
    | none => db.modelStatus
  { job :=
      { status := w.status.getD db.job.status
        progress := w.progress.getD db.job.progress
        metrics := match w.metrics with | some m => some m | none => db.job.metrics
        error_message := match w.error_message with | some e => some e | none => db.job.error_message }
    modelStatus := ms }

namespace TrainingManager

/-- The progress written at a loop step: `step / total_steps * 100` with
`total_steps = 100`. -/
def progressAt (step : ℕ) : ℚ :=
  (step : ℚ) / 100 * 100

/-- The metrics dict written at a loop step. -/
def metricsAt (lr : ℚ) (step : ℕ) : TrainMetrics :=
  { loss := 1 - (progressAt step / 100) * (9 / 10)
    learning_rate := lr
    step := step
    total_steps := 100 }

def progressWrite (lr : ℚ) (step : ℕ) : RegistryWrite :=
  { status := none, progress := some (progressAt step), metrics := some (metricsAt lr step),
    error_message := none }

/-- The `for step in range(total_steps + 1)` loop of `_run_lora_training`:
returns the final database state, the registry writes issued, and whether
the loop returned early because the stop event was set. -/
def loraLoop (stop : ℕ → Bool) (lr : ℚ) : List ℕ → TrainingDb → TrainingDb × List RegistryWrite × Bool
  | [], db => (db, [], false)
  | s :: rest, db =>
    if stop s then (db, [], true)
    else
      let w := progressWrite lr s
      let db1 := update_training_job db w
      let r := loraLoop stop lr rest db1
      (r.1, w :: r.2.1, r.2.2)

/-- The result of one training-thread run: final database state and the
trace of `update_training_job` calls it made. -/
structure RunResult where
  db : TrainingDb
  trace : List RegistryWrite
deriving DecidableEq

/-- `TrainingManager._run_lora_training` (the thread body), for a job whose
model row is found iff `modelFound`.  `hyperparameters.get("learning_rate",
5e-5)` supplies the learning rate. -/
def run_lora_training (stop : ℕ → Bool) (hyper : List (String × ℚ))
    (modelFound : Bool) (db : TrainingDb) : RunResult :=
  let lr := (dictGet hyper "learning_rate").getD (1 / 20000)
  let w0 : RegistryWrite :=
    { status := some TrainingStatus.running, progress := some 0, metrics := none,
      error_message := none }
  let db0 := update_training_job db w0
  if !modelFound then
    let wf : RegistryWrite :=
      { status := some TrainingStatus.failed, progress := none, metrics := none,
        error_message := some "Model not found" }
    { db := update_training_job db0 wf, trace := [w0, wf] }
  else
    let r := loraLoop stop lr (List.range 101) db0
    if r.2.2 then
      -- the stop event was observed: the thread returns with no further write
      { db := r.1, trace := w0 :: r.2.1 }
    else
      let wc : RegistryWrite :=
        { status := some TrainingStatus.completed, progress := some 100, metrics := none,
          error_message := none }
      { db := update_training_job r.1 wc, trace := w0 :: r.2.1 ++ [wc] }

/-- `TrainingManager._run_qlora_training`: the source calls the LoRA
method as a placeholder. -/
def run_qlora_training (stop : ℕ → Bool) (hyper : List (String × ℚ))
    (modelFound : Bool) (db : TrainingDb) : RunResult :=
  run_lora_training stop hyper modelFound db

/-- `TrainingManager._run_peft_training`: calls the LoRA method. -/
def run_peft_training (stop : ℕ → Bool) (hyper : List (String × ℚ))
    (modelFound : Bool) (db : TrainingDb) : RunResult :=
  run_lora_training stop hyper modelFound db

/-- `TrainingManager._run_full_fine_tuning`: calls the LoRA method. -/
def run_full_fine_tuning (stop : ℕ → Bool) (hyper : List (String × ℚ))
    (modelFound : Bool) (db : TrainingDb) : RunResult :=
  run_lora_training stop hyper modelFound db

/-- The thread target chosen by `TrainingManager.start_training_job` for
each training type. -/
def run_training_thread (tt : TrainingType) (stop : ℕ → Bool)
    (hyper : List (String × ℚ)) (modelFound : Bool) (db : TrainingDb) : RunResult :=
  match tt with
  | .lora => run_lora_training stop hyper modelFound db
  | .qlora => run_qlora_training stop hyper modelFound db
  | .peft => run_peft_training stop hyper modelFound db
  | .full_fine_tuning => run_full_fine_tuning stop hyper modelFound db

end TrainingManager

/-! ### The agent manager
(src/llm-training-platform/src/agent_deployment/service/agent_manager.py).

The module keeps the in-memory dict `deployed_agents` mapping agent ids to
runtime entries; every function below threads that dict explicitly.
`datetime.utcnow()` is modelled by a `now : ℕ` parameter (seconds), and
`str(uuid.uuid4())` by explicitly passed fresh strings.  The `Agent` row
class (`src.agent_deployment.models.agent`) is not among the source files;
its fields are the ones the agent manager reads (`id`, `name`,
`agent_type`, `model_id`, `status`, `config`). -/

/-- A Python value stored in an agent `config` dict (the manager only ever
copies these around, or nests a dict under a key). -/
inductive PyVal where
  | str : String → PyVal
  | num : ℚ → PyVal
  | dict : List (String × PyVal) → PyVal

abbrev ConfigDict : Type := List (String × PyVal)

/-- Modelled from the spec: an Agent is "a configured conversational
endpoint bound to a trained or RAG-backed model; tracked as a database row
with a status enum"; the fields are those the agent manager uses. -/
structure Agent where
  id : String
  name : String
  agent_type : AgentType
  model_id : String
  status : AgentStatus
  config : ConfigDict

/-- `ChatMessage` from src/agent_deployment/api/schemas.py. -/
structure ChatMessage where
  role : String
  content : String
  timestamp : Option ℕ

/-- The placeholder returned by `load_fine_tuned_model` / `load_rag_model`. -/
structure ModelInfo where
  model_id : String
  model_type : String
  loaded_at : ℕ

structure ConversationRec where
  messages : List ChatMessage
  last_updated : ℕ

/-- One entry of the `deployed_agents` dict. -/
structure AgentRuntime where
  agent : Agent
  model_info : ModelInfo
  last_used : ℕ
  active_conversations : List (String × ConversationRec)

abbrev Registry : Type := List (String × AgentRuntime)

/-- `RetrievedContext` from src/model_training/api/schemas.py (also the
shape of the context dicts built by `generate_rag_response`). -/
structure RetrievedContext where
  text : String
  document_id : String
  document_name : String
  chunk_id : String
  score : ℚ
  page_numbers : Option (List ℤ)
deriving DecidableEq

namespace AgentManager

/-- The body of `deploy_agent` up to the point where an exception escapes
to the blanket handler.  An error carries the Python state at raise time
(the agent object and the registry, both mutated in place).  The read of
`settings.MAX_DEPLOYED_AGENTS` raises `AttributeError` because `Settings`
has no such attribute; everything after it is dead code, written out as
the source has it.  The registry entry aliases the agent object, so the
later `agent.status = DEPLOYED` write is visible through the entry. -/
def deployBody (st : Registry) (agent : Agent) (now : ℕ) :
    Except (String × Agent × Registry) (Bool × Agent × Registry) :=
  if dictContains st agent.id then Except.ok (true, agent, st)
  else
    match settingsGetAttr "MAX_DEPLOYED_AGENTS" with
    | Except.error e => Except.error (e, agent, st)
    | Except.ok v =>
      match settingsValToInt v with
      | none => Except.error ("TypeError: comparison of int and non-int settings attribute", agent, st)
      | some maxAgents =>
        if (st.length : ℤ) ≥ maxAgents then Except.ok (false, agent, st)
        else
          let agent1 : Agent := { agent with status := AgentStatus.deploying }
          let minfo : ModelInfo :=
            match agent1.agent_type with
            | AgentType.fine_tuned =>
              { model_id := agent1.model_id, model_type := "fine_tuned", loaded_at := now }
            | AgentType.rag =>
              { model_id := agent1.model_id, model_type := "rag", loaded_at := now }
          let agent2 : Agent := { agent1 with status := AgentStatus.deployed }
          let entry : AgentRuntime :=
            { agent := agent2, model_info := minfo, last_used := now,
              active_conversations := [] }
          Except.ok (true, agent2, dictSet st agent2.id entry)

/-- `deploy_agent`: the blanket `except` handler logs, sets
`agent.status = FAILED` and returns `False`. -/
def deploy_agent (st : Registry) (agent : Agent) (now : ℕ) : Bool × Agent × Registry :=
  match deployBody st agent now with
  | Except.ok r => r
  | Except.error (_, a, s) => (false, { a with status := AgentStatus.failed }, s)

/-- `stop_agent`.  The returned `Option Agent` reports the final state of
the stopped agent object (a database row that outlives its registry
entry): its status is set to `STOPPED` before the entry is deleted. -/
def stop_agent (st : Registry) (aid : String) : Bool × Option Agent × Registry :=
  match dictGet st aid with
  | none => (true, none, st)
  | some entry =>
    let stopped : Agent := { entry.agent with status := AgentStatus.stopped }
    (true, some stopped, dictDel st aid)

/-- `stop_all_agents`: stop every key of the registry in order. -/
def stop_all_agents (st : Registry) : Registry :=
  (dictKeys st).foldl (fun acc aid => (stop_agent acc aid).2.2) st

/-- `get_agent_status`. -/
def get_agent_status (st : Registry) (aid : String) : Option AgentStatus :=
  (dictGet st aid).map (fun e => e.agent.status)

/-- `update_agent_last_used`. -/
def update_agent_last_used (st : Registry) (aid : String) (now : ℕ) : Registry :=
  match dictGet st aid with
  | none => st
  | some e => dictSet st aid { e with last_used := now }

/-- `create_conversation`.  A falsy `system_message` (absent or empty)
adds no message. -/
def create_conversation (st : Registry) (aid _uid : String) (sys : Option String)
    (now : ℕ) (uuid : String) : Option String × Registry :=
  match dictGet st aid with
  | none => (none, st)
  | some entry =>
    let msgs : List ChatMessage :=
      match sys with
      | some m => if m ≠ "" then [{ role := "system", content := m, timestamp := some now }] else []
      | none => []
    let conv : ConversationRec := { messages := msgs, last_updated := now }
    let entry1 := { entry with active_conversations := dictSet entry.active_conversations uuid conv }
    (some uuid, dictSet st aid entry1)

/-- `get_conversation`. -/
def get_conversation (st : Registry) (aid cid : String) : Option ConversationRec :=
  (dictGet st aid).bind (fun e => dictGet e.active_conversations cid)

/-- `add_message_to_conversation`. -/
def add_message_to_conversation (st : Registry) (aid cid : String) (msg : ChatMessage)
    (now : ℕ) : Bool × Registry :=
  match dictGet st aid with
  | none => (false, st)
  | some entry =>
    match dictGet entry.active_conversations cid with
    | none => (false, st)
    | some conv =>
      let conv1 := { conv with messages := conv.messages ++ [msg], last_updated := now }
      let entry1 := { entry with active_conversations := dictSet entry.active_conversations cid conv1 }
      let st1 := dictSet st aid entry1
      (true, update_agent_last_used st1 aid now)

/-- The response text of `generate_response`:
`f"This is a placeholder response from agent {agent.name} (ID: {agent.id})"`. -/
def placeholderContent (name aid : String) : String :=
  "This is a placeholder response from agent " ++ name ++ " (ID: " ++ aid ++ ")"

/-- `generate_response`.  `config = agent.config or {}` aliases the agent's
config dict when it is truthy, so `config.update(generation_config)`
mutates `agent.config` exactly when both dicts are non-empty; the merged
dict is never read afterwards. -/
def generate_response (st : Registry) (aid cid : String) (gcfg : Option ConfigDict)
    (now : ℕ) : Option ChatMessage × Registry :=
  match dictGet st aid with
  | none => (none, st)
  | some entry =>
    if dictContains entry.active_conversations cid then
      let agent := entry.agent
      let agent1 : Agent :=
        match gcfg with
        | some g => if !agent.config.isEmpty && !g.isEmpty then { agent with config := pyUpdate agent.config g } else agent
        | none => agent
      let response : ChatMessage :=
        { role := "assistant", content := placeholderContent agent.name agent.id,
          timestamp := some now }
      let st1 := dictSet st aid { entry with agent := agent1 }
      let st2 := (add_message_to_conversation st1 aid cid response now).2
      let st3 := update_agent_last_used st2 aid now
      (some response, st3)
    else (none, st)

/-- The response text of `generate_rag_response`. -/
def placeholderRagContent (name aid : String) : String :=
  "This is a placeholder RAG response from agent " ++ name ++ " (ID: " ++ aid ++ ")"

/-- The single hard-coded context returned by `generate_rag_response`
(only the two uuids are freshly generated). -/
def placeholderContext (u1 u2 : String) : RetrievedContext :=
  { text := "This is a placeholder retrieved context.",
    document_id := u1, document_name := "Sample Document", chunk_id := u2,
    score := 95 / 100, page_numbers := some [1] }

/-- `generate_rag_response`.  As in `generate_response`, the config merge
(`config.update({"retrieval": ...})`, `config.update({"generation": ...})`)
mutates `agent.config` exactly when it is truthy; no vector store is
consulted anywhere in the function. -/
def generate_rag_response (st : Registry) (aid cid : String)
    (rc gc : Option ConfigDict) (now : ℕ) (u1 u2 : String) :
    Option (ChatMessage × List RetrievedContext) × Registry :=
  match dictGet st aid with
  | none => (none, st)
  | some entry =>
    if dictContains entry.active_conversations cid then
      let agent := entry.agent
      if agent.agent_type ≠ AgentType.rag then (none, st)
      else
        let mergeCfg : ConfigDict → ConfigDict := fun c =>
          let c1 := match rc with
            | some r => if !r.isEmpty then dictSet c "retrieval" (PyVal.dict r) else c
            | none => c
          match gc with
          | some g => if !g.isEmpty then dictSet c1 "generation" (PyVal.dict g) else c1
          | none => c1
        let agent1 : Agent :=
          if !agent.config.isEmpty then { agent with config := mergeCfg agent.config } else agent
        let response : ChatMessage :=
          { role := "assistant", content := placeholderRagContent agent.name agent.id,
            timestamp := some now }
        let st1 := dictSet st aid { entry with agent := agent1 }
        let st2 := (add_message_to_conversation st1 aid cid response now).2
        let st3 := update_agent_last_used st2 aid now
        (some (response, [placeholderContext u1 u2]), st3)
    else (none, st)

/-- `cleanup_inactive_agents`.  The first statement of the `try` block
reads `settings.AGENT_TIMEOUT_SECONDS`, which does not exist on
`Settings`; the `AttributeError` is swallowed by the blanket handler
before the scan starts, so the registry is returned unchanged.  The scan
itself (dead code) is written out as the source has it. -/
def cleanup_inactive_agents (st : Registry) (now : ℕ) : Registry :=
  match settingsGetAttr "AGENT_TIMEOUT_SECONDS" with
  | Except.error _ => st
  | Except.ok v =>
    match settingsValToInt v with
    | none => st
    | some timeout =>
      (dictKeys st).foldl
        (fun acc aid =>
          match dictGet acc aid with
          | none => acc
          | some entry =>
            if ((now : ℤ) - (entry.last_used : ℤ)) > timeout then (stop_agent acc aid).2.2
            else acc)
        st

/-- The operations the service layer performs on the `deployed_agents`
dict, for stating which registry states are reachable. -/
inductive AgentOp where
  | deploy (agent : Agent) (now : ℕ)
  | stop (aid : String)
  | stopAll
  | createConv (aid uid : String) (sys : Option String) (now : ℕ) (uuid : String)
  | addMessage (aid cid : String) (msg : ChatMessage) (now : ℕ)
  | genResponse (aid cid : String) (gcfg : Option ConfigDict) (now : ℕ)
  | genRagResponse (aid cid : String) (rc gc : Option ConfigDict) (now : ℕ) (u1 u2 : String)
  | updateLastUsed (aid : String) (now : ℕ)
  | cleanup (now : ℕ)

def applyOp (st : Registry) : AgentOp → Registry
  | .deploy agent now => (deploy_agent st agent now).2.2
  | .stop aid => (stop_agent st aid).2.2
  | .stopAll => stop_all_agents st
  | .createConv aid uid sys now uuid => (create_conversation st aid uid sys now uuid).2
  | .addMessage aid cid msg now => (add_message_to_conversation st aid cid msg now).2
  | .genResponse aid cid gcfg now => (generate_response st aid cid gcfg now).2
  | .genRagResponse aid cid rc gc now u1 u2 => (generate_rag_response st aid cid rc gc now u1 u2).2
  | .updateLastUsed aid now => update_agent_last_used st aid now
  | .cleanup now => cleanup_inactive_agents st now

def applyOps (st : Registry) (ops : List AgentOp) : Registry :=
  ops.foldl applyOp st

end AgentManager

/-! ### The RAG service
(src/llm-training-platform/src/model_training/rag/rag_service.py).

`RAGService` holds a `ModelRegistry` (RAG-model rows in the database), a
`DatasetService` (document rows) and a vector store.  These dependencies
are modelled as an environment record.  Note on the vector store: the
module does `from src.data_structuring.vector_store.vector_store import
VectorStore` and calls `self.vector_store.search(...)`, but no class
`VectorStore` (and no method `search`) exists anywhere in the repository
(the vector-store module only exposes module-level functions, none of them
named `search`); the call is therefore modelled as an oracle
`searchFn`, standing for whatever that absent dependency would return. -/

/-- The data `ModelRegistry.get_rag_model` returns for an existing RAG
model, restricted to the fields `retrieve`/`generate` read:
`rag_config.dataset_id`, `rag_config.embedding_model`,
`rag_config.retrieval_config`, `rag_config.generation_config`, and
`base_model`.  Config values are numeric (`top_k`,
`similarity_threshold`). -/
structure RagModelRec where
  base_model : String
  dataset_id : String
  embedding_model : String
  retrieval_config : List (String × ℚ)
  generation_config : List (String × ℚ)

/-- One result dict of the (absent) vector-store `search`, restricted to
the keys `retrieve` reads: `text`, `document_id`, `id`, `score`,
`metadata.page_numbers`. -/
structure ChunkHit where
  id : String
  document_id : String
  text : String
  score : ℚ
  page_numbers : Option (List ℤ)
deriving DecidableEq

/-- The environment of a `RAGService` instance: the RAG-model rows, the
vector-store search oracle (query, dataset_id, embedding_model, top_k,
similarity_threshold), and the document rows (id to name). -/
structure RagEnv where
  ragModels : String → Option RagModelRec
  searchFn : String → String → String → ℚ → ℚ → List ChunkHit
  documents : String → Option String

namespace RAGService

/-- `RAGService.retrieve`: look up the RAG model (raising `ValueError` if
absent), merge the retrieval configs, read `top_k` (default 5) and
`similarity_threshold` (default 0.7), run the vector-store search, and
convert each hit into a `RetrievedContext`, resolving the document name
(`"Unknown"` when the document row is missing). -/
def retrieve (env : RagEnv) (model_id query : String)
    (retrieval_config : Option (List (String × ℚ))) :
    Except String (List RetrievedContext) :=
  match env.ragModels model_id with
  | none => Except.error ("RAG model not found: " ++ model_id)
  | some m =>
    let cfg := pyUpdate m.retrieval_config (retrieval_config.getD [])
    let top_k := (dictGet cfg "top_k").getD 5
    let thr := (dictGet cfg "similarity_threshold").getD (7 / 10)
    let hits := env.searchFn query m.dataset_id m.embedding_model top_k thr
    Except.ok (hits.map (fun h =>
      { text := h.text, document_id := h.document_id,
        document_name := (env.documents h.document_id).getD "Unknown",
        chunk_id := h.id, score := h.score, page_numbers := h.page_numbers }))

/-- Two-decimal rendering of a score, for the f-string `{score:.2f}`
(decimal rounding; no verified property depends on the digits). -/
def formatScore2 (q : ℚ) : String :=
  let n : ℤ := round (q * 100)
  let whole := n / 100
  let frac := (n % 100).natAbs
  toString whole ++ "." ++ (if frac < 10 then "0" else "") ++ toString frac

/-- The context lines appended to the simulated response:
`f"- Context {i+1} (score: {s:.2f}): {text[:100]}...\n"`. -/
def contextLines (contexts : List RetrievedContext) : String :=
  String.join (contexts.enum.map (fun p =>
    "- Context " ++ toString (p.1 + 1) ++ " (score: " ++ formatScore2 p.2.score ++ "): "
      ++ p.2.text.take 100 ++ "...\n"))

/-- The string `generate` returns: the fixed template applied to the query
and the given contexts. -/
def simulatedResponse (query : String) (contexts : List RetrievedContext) : String :=
  "This is a simulated RAG response for the query: " ++ query ++ "\n\n"
    ++ "Based on the retrieved contexts:\n" ++ contextLines contexts

/-- `RAGService._prepare_rag_prompt` (computed by `generate` and then
never used). -/
def prepare_rag_prompt (query : String) (contexts : List RetrievedContext) : String :=
  "You are an AI assistant that answers questions based on the provided context.\n\n"
    ++ "Context information:\n"
    ++ String.join (contexts.enum.map (fun p =>
        "[" ++ toString (p.1 + 1) ++ "] " ++ p.2.text ++ "\n\n"))
    ++ "Question: " ++ query ++ "\n\n"
    ++ "Answer the question based on the context provided. If the answer cannot be determined from the context, say so."

/-- `RAGService.generate`: look up the RAG model (raising `ValueError` if
absent), read `base_model`, merge the generation configs, prepare the
prompt — and then return the simulated template response; the base model,
the merged config and the prompt are never used. -/
def generate (env : RagEnv) (model_id query : String)
    (contexts : List RetrievedContext)
    (generation_config : Option (List (String × ℚ))) : Except String String :=
  match env.ragModels model_id with
  | none => Except.error ("RAG model not found: " ++ model_id)
  | some m =>
    let _base_model := m.base_model
    let _cfg := pyUpdate m.generation_config (generation_config.getD [])
    let _prompt := prepare_rag_prompt query contexts
    Except.ok (simulatedResponse query contexts)

/-- `RAGService.query`: retrieve, then generate from the retrieved
contexts, and return both. -/
def query (env : RagEnv) (model_id q : String)
    (retrieval_config generation_config : Option (List (String × ℚ))) :
    Except String (String × List RetrievedContext) := do
  let contexts ← retrieve env model_id q retrieval_config
  let response ← generate env model_id q contexts generation_config
  return (response, contexts)

end RAGService

/-! ### Shared example values used by concrete instantiations -/

def miEx : ModelInfo := { model_id := "m1", model_type := "fine_tuned", loaded_at := 0 }

def agentEx : Agent :=
  { id := "agent-1", name := "Alice", agent_type := AgentType.fine_tuned,
    model_id := "m1", status := AgentStatus.created, config := [] }

/-! ### Helper lemmas -/

theorem filterMap_some_eq_map {α β : Type} (f : α → β) (l : List α) :
    l.filterMap (fun a => some (f a)) = l.map f := by
  induction l with
  | nil => rfl
  | cons a l ih => simp [List.filterMap_cons, ih]

/-- Membership in the Python range `range(0, n, step)` for positive step. -/
theorem mem_pyRange {n step i : ℕ} (hs : 0 < step) :
    i ∈ pyRange n step ↔ ∃ k, i = k * step ∧ i < n := by
  have key : ∀ k : ℕ, k < (n + step - 1) / step ↔ k * step < n := by
    intro k
    rw [Nat.lt_iff_add_one_le, Nat.le_div_iff_mul_le hs, add_one_mul]
    omega
  simp only [pyRange, List.mem_map, List.mem_range]
  constructor
  · rintro ⟨k, hk, rfl⟩
    exact ⟨k, rfl, (key k).mp hk⟩
  · rintro ⟨k, rfl, hk⟩
    exact ⟨k, (key k).mpr hk, rfl⟩

/-- A Python slice of a list is an infix (contiguous sublist) of it. -/
theorem pySlice_isInfix (l : List Char) (i k : ℕ) : pySlice l i k <:+: l :=
  (List.take_prefix k (l.drop i)).isInfix.trans (List.drop_suffix i l).isInfix

/-- The step size of fixed-size chunking is positive when the chunk size is. -/
theorem step_size_pos (cs co : ℕ) (h : 0 < cs) : 0 < ChunkingService.step_size cs co := by
  unfold ChunkingService.step_size
  split <;> omega

/-! ### Claims about the chunking service -/

/-- C2 (counterexample): on the input `"A.\nB."` with the service's default
`chunk_size = 1000`, `chunk_overlap = 200`, the SENTENCE strategy returns
the single chunk `"A. B."`, which is not a contiguous slice of the input:
the splitter consumed the newline separator and the chunker re-joined the
two sentences with a plain space. -/
theorem chunk_sentence_not_slice_counterexample :
    ChunkingService.chunk_text ['A', '.', '\n', 'B', '.'] 1000 200 ChunkStrategy.SENTENCE
        = [['A', '.', ' ', 'B', '.']] ∧
    ¬ (['A', '.', ' ', 'B', '.'] <:+: ['A', '.', '\n', 'B', '.']) := by
  constructor
  · decide
  · decide

/-- C2 (amended): every chunk returned under the FIXED_SIZE strategy is a
contiguous slice of the input text (under SENTENCE and PARAGRAPH the
chunks are split pieces re-joined with normalized separators, which the
counterexample shows need not be contiguous slices). -/
theorem chunk_fixed_size_slices (text : List Char) (cs co : ℕ) (c : List Char)
    (hc : c ∈ ChunkingService.chunk_text text cs co ChunkStrategy.FIXED_SIZE) :
    c <:+: text := by
  by_cases ht : text = []
  · subst ht
    simp [ChunkingService.chunk_text] at hc
  · simp only [ChunkingService.chunk_text, if_neg ht, ChunkingService.chunk_by_fixed_size,
      List.mem_filter, List.mem_map] at hc
    obtain ⟨⟨i, _, rfl⟩, _⟩ := hc
    exact pySlice_isInfix text i cs

theorem chunk_fixed_size_slices_witness :
    (['a'] ∈ ChunkingService.chunk_text ['a', 'b'] 1 0 ChunkStrategy.FIXED_SIZE) ∧
    ['a'] <:+: ['a', 'b'] :=
  ⟨by decide, chunk_fixed_size_slices ['a', 'b'] 1 0 ['a'] (by decide)⟩

/-- C9: fixed-size chunking is total; with `chunk_overlap ≥ chunk_size` the
step size falls back to `chunk_size`; empty input yields `[]` under every
strategy; and every chunk under FIXED_SIZE is a slice `text[i : i + cs]`
at a multiple `i` of the step size below the text length, is at most
`chunk_size` long, contains a non-whitespace character — and every such
not-all-whitespace slice is among the chunks. -/
theorem chunk_fixed_size_termination_shape (text : List Char) (cs co : ℕ)
    (strat : ChunkStrategy) (hcs : 0 < cs) :
    (cs ≤ co → ChunkingService.step_size cs co = cs) ∧
    ChunkingService.chunk_text [] cs co strat = [] ∧
    (∀ c ∈ ChunkingService.chunk_text text cs co ChunkStrategy.FIXED_SIZE,
        c.length ≤ cs ∧ (∃ ch ∈ c, ¬ (pyIsSpace ch = true)) ∧
        ∃ k, k * ChunkingService.step_size cs co < text.length ∧
          c = pySlice text (k * ChunkingService.step_size cs co) cs) ∧
    (∀ k, k * ChunkingService.step_size cs co < text.length →
        (∃ ch ∈ pySlice text (k * ChunkingService.step_size cs co) cs, ¬ (pyIsSpace ch = true)) →
        pySlice text (k * ChunkingService.step_size cs co) cs
          ∈ ChunkingService.chunk_text text cs co ChunkStrategy.FIXED_SIZE) := by
  have hstep := step_size_pos cs co hcs
  refine ⟨?_, rfl, ?_, ?_⟩
  · intro h
    unfold ChunkingService.step_size
    rw [if_pos (by omega)]
  · intro c hc
    by_cases ht : text = []
    · subst ht; simp [ChunkingService.chunk_text] at hc
    · simp only [ChunkingService.chunk_text, if_neg ht, ChunkingService.chunk_by_fixed_size,
        List.mem_filter, List.mem_map] at hc
      obtain ⟨⟨i, hi, rfl⟩, hns⟩ := hc
      obtain ⟨k, rfl, hilt⟩ := (mem_pyRange hstep).mp hi
      refine ⟨List.length_take_le cs _, ?_, k, hilt, rfl⟩
      simpa [hasNonSpace, List.any_eq_true] using hns
  · intro k hk hns
    have ht : text ≠ [] := by
      intro h; subst h; simp at hk
    simp only [ChunkingService.chunk_text, if_neg ht, ChunkingService.chunk_by_fixed_size,
      List.mem_filter, List.mem_map]
    refine ⟨⟨k * ChunkingService.step_size cs co, (mem_pyRange hstep).mpr ⟨k, rfl, hk⟩, rfl⟩, ?_⟩
    simpa [hasNonSpace, List.any_eq_true] using hns

theorem chunk_fixed_size_termination_shape_witness :
    0 < 3 ∧
    ((3 ≤ 5 → ChunkingService.step_size 3 5 = 3) ∧
     ChunkingService.chunk_text [] 3 5 ChunkStrategy.SENTENCE = [] ∧
     (∀ c ∈ ChunkingService.chunk_text ['a', 'b', 'c', 'd'] 3 5 ChunkStrategy.FIXED_SIZE,
         c.length ≤ 3 ∧ (∃ ch ∈ c, ¬ (pyIsSpace ch = true)) ∧
         ∃ k, k * ChunkingService.step_size 3 5 < (['a', 'b', 'c', 'd'] : List Char).length ∧
           c = pySlice ['a', 'b', 'c', 'd'] (k * ChunkingService.step_size 3 5) 3) ∧
     (∀ k, k * ChunkingService.step_size 3 5 < (['a', 'b', 'c', 'd'] : List Char).length →
         (∃ ch ∈ pySlice ['a', 'b', 'c', 'd'] (k * ChunkingService.step_size 3 5) 3,
            ¬ (pyIsSpace ch = true)) →
         pySlice ['a', 'b', 'c', 'd'] (k * ChunkingService.step_size 3 5) 3
           ∈ ChunkingService.chunk_text ['a', 'b', 'c', 'd'] 3 5 ChunkStrategy.FIXED_SIZE)) :=
  ⟨by decide, chunk_fixed_size_termination_shape ['a', 'b', 'c', 'd'] 3 5 ChunkStrategy.SENTENCE (by decide)⟩

/-- C10: the SEMANTIC strategy produces exactly the chunks of the SENTENCE
strategy: `_chunk_by_semantic` is an unimplemented placeholder that falls
back to sentence-based chunking. -/
theorem chunk_semantic_eq_sentence (text : List Char) (chunk_size chunk_overlap : ℕ) :
    ChunkingService.chunk_text text chunk_size chunk_overlap ChunkStrategy.SEMANTIC
      = ChunkingService.chunk_text text chunk_size chunk_overlap ChunkStrategy.SENTENCE := by
  unfold ChunkingService.chunk_text
  split
  · rfl
  · rfl

/-! ### Claims about the agent manager -/

/-- Reading `settings.MAX_DEPLOYED_AGENTS` raises `AttributeError`. -/
theorem settings_max_deployed_agents_missing :
    settingsGetAttr "MAX_DEPLOYED_AGENTS"
      = Except.error "AttributeError: Settings object has no attribute MAX_DEPLOYED_AGENTS" := rfl

/-- Deploying an agent whose id is not in the registry always fails with
status `FAILED` and an unchanged registry: the capacity check raises
`AttributeError` and the blanket handler catches it. -/
theorem deploy_agent_miss (st : Registry) (agent : Agent) (now : ℕ)
    (h : dictContains st agent.id = false) :
    AgentManager.deploy_agent st agent now
      = (false, { agent with status := AgentStatus.failed }, st) := by
  unfold AgentManager.deploy_agent AgentManager.deployBody
  rw [h]
  simp [settingsGetAttr, settingsAttrs, dictGet]

/-- Every agent-manager operation maps the empty registry to the empty
registry. -/
theorem applyOp_empty (op : AgentManager.AgentOp) : AgentManager.applyOp [] op = [] := by
  cases op with
  | deploy agent now =>
    show (AgentManager.deploy_agent [] agent now).2.2 = []
    rw [deploy_agent_miss [] agent now rfl]
  | _ => rfl

/-- C3: with the registry in any state, deploying a not-yet-deployed agent
returns `False`, leaves the agent with status `FAILED`, and leaves the
registry unchanged, because reading `settings.MAX_DEPLOYED_AGENTS` raises
`AttributeError` (the limit lives at `settings.agent.max_deployed_agents`)
and the blanket handler catches it; consequently every registry state
reachable from the empty one by agent-manager operations is empty, and
`create_conversation` and `generate_response` fail on the empty registry
for every agent id. -/
theorem deploy_agent_attribute_error (st : Registry) (agent : Agent) (now : ℕ)
    (h : dictContains st agent.id = false) :
    AgentManager.deploy_agent st agent now
        = (false, { agent with status := AgentStatus.failed }, st) ∧
    settingsGetAttr "MAX_DEPLOYED_AGENTS"
        = Except.error "AttributeError: Settings object has no attribute MAX_DEPLOYED_AGENTS" ∧
    (∀ ops : List AgentManager.AgentOp, AgentManager.applyOps [] ops = []) ∧
    (∀ aid uid sys now1 uuid,
        AgentManager.create_conversation [] aid uid sys now1 uuid = (none, [])) ∧
    (∀ aid cid g now1, AgentManager.generate_response [] aid cid g now1 = (none, [])) := by
  refine ⟨deploy_agent_miss st agent now h, rfl, ?_, fun _ _ _ _ _ => rfl, fun _ _ _ _ => rfl⟩
  intro ops
  induction ops with
  | nil => rfl
  | cons op rest ih =>
    show AgentManager.applyOps (AgentManager.applyOp [] op) rest = []
    rw [applyOp_empty op]
    exact ih

theorem deploy_agent_attribute_error_witness :
    dictContains ([] : Registry) agentEx.id = false ∧
    (AgentManager.deploy_agent [] agentEx 5
        = (false, { agentEx with status := AgentStatus.failed }, []) ∧
     settingsGetAttr "MAX_DEPLOYED_AGENTS"
        = Except.error "AttributeError: Settings object has no attribute MAX_DEPLOYED_AGENTS" ∧
     (∀ ops : List AgentManager.AgentOp, AgentManager.applyOps [] ops = []) ∧
     (∀ aid uid sys now1 uuid,
        AgentManager.create_conversation [] aid uid sys now1 uuid = (none, [])) ∧
     (∀ aid cid g now1, AgentManager.generate_response [] aid cid g now1 = (none, []))) :=
  ⟨rfl, deploy_agent_attribute_error [] agentEx 5 rfl⟩

/-- C5: the assistant message produced by `generate_response` is a
hard-coded placeholder determined only by the agent's name and id: on any
two registry states holding the agent under (possibly different) ids with
the same `name` and `id` fields, with any conversation histories and any
generation configs, the produced contents are identical (and equal to the
placeholder template). -/
theorem generate_response_placeholder_noninterference
    (st₁ st₂ : Registry) (aid₁ aid₂ cid₁ cid₂ : String)
    (g₁ g₂ : Option ConfigDict) (now₁ now₂ : ℕ) (e₁ e₂ : AgentRuntime)
    (h₁ : dictGet st₁ aid₁ = some e₁) (h₂ : dictGet st₂ aid₂ = some e₂)
    (hc₁ : dictContains e₁.active_conversations cid₁ = true)
    (hc₂ : dictContains e₂.active_conversations cid₂ = true)
    (hname : e₁.agent.name = e₂.agent.name) (hid : e₁.agent.id = e₂.agent.id) :
    ∃ m₁ m₂ : ChatMessage,
      (AgentManager.generate_response st₁ aid₁ cid₁ g₁ now₁).1 = some m₁ ∧
      (AgentManager.generate_response st₂ aid₂ cid₂ g₂ now₂).1 = some m₂ ∧
      m₁.role = "assistant" ∧ m₂.role = "assistant" ∧
      m₁.content = AgentManager.placeholderContent e₁.agent.name e₁.agent.id ∧
      m₁.content = m₂.content := by
  have r₁ : (AgentManager.generate_response st₁ aid₁ cid₁ g₁ now₁).1
      = some { role := "assistant",
               content := AgentManager.placeholderContent e₁.agent.name e₁.agent.id,
               timestamp := some now₁ } := by
    unfold AgentManager.generate_response
    rw [h₁]
    simp [hc₁]
  have r₂ : (AgentManager.generate_response st₂ aid₂ cid₂ g₂ now₂).1
      = some { role := "assistant",
               content := AgentManager.placeholderContent e₂.agent.name e₂.agent.id,
               timestamp := some now₂ } := by
    unfold AgentManager.generate_response
    rw [h₂]
    simp [hc₂]
  refine ⟨_, _, r₁, r₂, rfl, rfl, rfl, ?_⟩
  show AgentManager.placeholderContent e₁.agent.name e₁.agent.id
      = AgentManager.placeholderContent e₂.agent.name e₂.agent.id
  rw [hname, hid]

def convEmptyEx : ConversationRec := { messages := [], last_updated := 0 }

def msgEx : ChatMessage := { role := "user", content := "hi", timestamp := some 1 }

def convMsgEx : ConversationRec := { messages := [msgEx], last_updated := 1 }

def rtEx1 : AgentRuntime :=
  { agent := agentEx, model_info := miEx, last_used := 0,
    active_conversations := [("c1", convEmptyEx)] }

def rtEx2 : AgentRuntime :=
  { agent := agentEx, model_info := miEx, last_used := 7,
    active_conversations := [("c2", convMsgEx)] }

def regEx1 : Registry := [("agent-1", rtEx1)]

def regEx2 : Registry := [("agent-1", rtEx2)]

theorem generate_response_placeholder_noninterference_witness :
    (dictGet regEx1 "agent-1" = some rtEx1 ∧ dictGet regEx2 "agent-1" = some rtEx2 ∧
     dictContains rtEx1.active_conversations "c1" = true ∧
     dictContains rtEx2.active_conversations "c2" = true) ∧
    ∃ m₁ m₂ : ChatMessage,
      (AgentManager.generate_response regEx1 "agent-1" "c1" none 3).1 = some m₁ ∧
      (AgentManager.generate_response regEx2 "agent-1" "c2"
          (some [("temperature", PyVal.num (7 / 10))]) 9).1 = some m₂ ∧
      m₁.role = "assistant" ∧ m₂.role = "assistant" ∧
      m₁.content = AgentManager.placeholderContent rtEx1.agent.name rtEx1.agent.id ∧
      m₁.content = m₂.content :=
  ⟨⟨rfl, rfl, rfl, rfl⟩,
   generate_response_placeholder_noninterference regEx1 regEx2 "agent-1" "agent-1" "c1" "c2"
     none (some [("temperature", PyVal.num (7 / 10))]) 3 9 rtEx1 rtEx2 rfl rfl rfl rfl rfl rfl⟩

/-- The registry state exhibiting the `cleanup_inactive_agents` bug: one
deployed agent whose `last_used` is far older than the intended timeout. -/
def staleAgentEx : Agent :=
  { id := "agent-1", name := "Alice", agent_type := AgentType.fine_tuned,
    model_id := "m1", status := AgentStatus.deployed, config := [] }

def staleRegistryEx : Registry :=
  [("agent-1",
    { agent := staleAgentEx, model_info := miEx, last_used := 0,
      active_conversations := [] })]

/-- C6 (code bug): `cleanup_inactive_agents` never stops anything.  Its
first statement reads `settings.AGENT_TIMEOUT_SECONDS`, an attribute that
does not exist on `Settings` (the intended value is
`settings.agent.agent_timeout_seconds`, default 30); the `AttributeError`
is swallowed by the blanket handler before the scan starts.  Concretely:
an agent last used at time 0 is still deployed, with its runtime entry
unchanged, after a cleanup at time 1000, although 1000 − 0 exceeds the
configured 30-second timeout. -/
theorem cleanup_inactive_agents_noop_bug :
    AgentManager.cleanup_inactive_agents staleRegistryEx 1000 = staleRegistryEx ∧
    AgentManager.get_agent_status
        (AgentManager.cleanup_inactive_agents staleRegistryEx 1000) "agent-1"
      = some AgentStatus.deployed ∧
    (1000 : ℤ) - 0 > agentSettingsDefaults.agent_timeout_seconds ∧
    settingsGetAttr "AGENT_TIMEOUT_SECONDS"
      = Except.error "AttributeError: Settings object has no attribute AGENT_TIMEOUT_SECONDS" ∧
    (∀ (st : Registry) (now : ℕ), AgentManager.cleanup_inactive_agents st now = st) :=
  ⟨rfl, rfl, by decide, rfl, fun _ _ => rfl⟩

/-- C8: status handling of the agent manager.  For an agent not yet in the
registry, `deploy_agent` returns `True` iff the agent ends with status
`DEPLOYED` (both sides never hold: the run fails), and the exceptional
exit leaves status `FAILED` with result `False`; `stop_agent` on a
deployed agent sets its status to `STOPPED` and removes its entry;
`get_agent_status` returns the stored agent's status exactly when the id
is in the registry and `None` otherwise. -/
theorem agent_status_lifecycle (st : Registry) (agent : Agent) (now : ℕ)
    (aid : String) (entry : AgentRuntime)
    (hnew : dictContains st agent.id = false) (hdep : dictGet st aid = some entry) :
    (((AgentManager.deploy_agent st agent now).1 = true ↔
        (AgentManager.deploy_agent st agent now).2.1.status = AgentStatus.deployed) ∧
     (AgentManager.deploy_agent st agent now).2.1.status = AgentStatus.failed ∧
     (AgentManager.deploy_agent st agent now).1 = false) ∧
    AgentManager.stop_agent st aid
      = (true, some { entry.agent with status := AgentStatus.stopped }, dictDel st aid) ∧
    AgentManager.get_agent_status st aid = some entry.agent.status ∧
    (∀ (st' : Registry) (aid' : String), dictGet st' aid' = none →
        AgentManager.get_agent_status st' aid' = none) := by
  have hd := deploy_agent_miss st agent now hnew
  refine ⟨⟨?_, ?_, ?_⟩, ?_, ?_, ?_⟩
  · rw [hd]
    constructor
    · intro h; cases h
    · intro h; cases h
  · rw [hd]
  · rw [hd]
  · unfold AgentManager.stop_agent
    rw [hdep]
  · unfold AgentManager.get_agent_status
    rw [hdep]
    rfl
  · intro st' aid' h
    unfold AgentManager.get_agent_status
    rw [h]
    rfl

theorem agent_status_lifecycle_witness :
    (dictContains regEx1 agentEx.id = false ∨ dictContains regEx1 "agent-2" = false) ∧
    ((((AgentManager.deploy_agent regEx1 { agentEx with id := "agent-2" } 4).1 = true ↔
        (AgentManager.deploy_agent regEx1 { agentEx with id := "agent-2" } 4).2.1.status
          = AgentStatus.deployed) ∧
      (AgentManager.deploy_agent regEx1 { agentEx with id := "agent-2" } 4).2.1.status
          = AgentStatus.failed ∧
      (AgentManager.deploy_agent regEx1 { agentEx with id := "agent-2" } 4).1 = false) ∧
     AgentManager.stop_agent regEx1 "agent-1"
       = (true, some { rtEx1.agent with status := AgentStatus.stopped }, dictDel regEx1 "agent-1") ∧
     AgentManager.get_agent_status regEx1 "agent-1" = some rtEx1.agent.status ∧
     (∀ (st' : Registry) (aid' : String), dictGet st' aid' = none →
        AgentManager.get_agent_status st' aid' = none)) :=
  ⟨Or.inr rfl,
   agent_status_lifecycle regEx1 { agentEx with id := "agent-2" } 4 "agent-1" rtEx1 rfl rfl⟩

/-! ### Claims about the RAG service -/

/-- C7: `RAGService.query` is exactly retrieval followed by generation on
the retrieved contexts, returning the response paired with those same
contexts (errors propagate in that order). -/
theorem rag_query_composition (env : RagEnv) (model_id q : String)
    (rc gc : Option (List (String × ℚ))) :
    RAGService.query env model_id q rc gc
      = (RAGService.retrieve env model_id q rc).bind (fun contexts =>
          (RAGService.generate env model_id q contexts gc).map (fun r => (r, contexts))) := by
  unfold RAGService.query
  cases hr : RAGService.retrieve env model_id q rc with
  | error e => rfl
  | ok contexts =>
    show (RAGService.generate env model_id q contexts gc).bind _
        = (RAGService.generate env model_id q contexts gc).map _
    cases RAGService.generate env model_id q contexts gc with
    | error e => rfl
    | ok r => rfl

/-- The RAG-model rows used by the C4 environments: a single model "m1". -/
def ragModelEx : RagModelRec :=
  { base_model := "llama-base", dataset_id := "ds1", embedding_model := "e5",
    retrieval_config := [], generation_config := [] }

def ragModelsEx : String → Option RagModelRec :=
  fun mid => if mid = "m1" then some ragModelEx else none

def docsEx : String → Option String := fun _ => none

def hitEx : ChunkHit :=
  { id := "c1", document_id := "d1", text := "stored text", score := 1 / 2,
    page_numbers := none }

/-- A vector store with no matching chunks. -/
def ragEnvEmpty : RagEnv :=
  { ragModels := ragModelsEx, searchFn := fun _ _ _ _ _ => [], documents := docsEx }

/-- The same rows and documents, but a store holding one matching chunk. -/
def ragEnvHit : RagEnv :=
  { ragModels := ragModelsEx, searchFn := fun _ _ _ _ _ => [hitEx], documents := docsEx }

/-- C4 (counterexample): `RAGService.retrieve` is not a placeholder that
ignores the vector store.  Two environments with identical RAG-model rows
and identical document rows, differing only in the vector-store search
results, give different `retrieve` outputs; the output is the converted
search result, not a fixed context list. -/
theorem rag_retrieve_depends_on_store :
    ragEnvEmpty.ragModels = ragEnvHit.ragModels ∧
    ragEnvEmpty.documents = ragEnvHit.documents ∧
    RAGService.retrieve ragEnvEmpty "m1" "q" none = Except.ok [] ∧
    RAGService.retrieve ragEnvHit "m1" "q" none
      = Except.ok [{ text := "stored text", document_id := "d1", document_name := "Unknown",
                     chunk_id := "c1", score := 1 / 2, page_numbers := none }] ∧
    RAGService.retrieve ragEnvEmpty "m1" "q" none ≠ RAGService.retrieve ragEnvHit "m1" "q" none := by
  refine ⟨rfl, rfl, rfl, rfl, ?_⟩
  intro h
  rw [show RAGService.retrieve ragEnvEmpty "m1" "q" none
        = Except.ok ([] : List RetrievedContext) from rfl,
      show RAGService.retrieve ragEnvHit "m1" "q" none
        = Except.ok [({ text := "stored text", document_id := "d1", document_name := "Unknown",
                        chunk_id := "c1", score := 1 / 2, page_numbers := none } : RetrievedContext)]
        from rfl] at h
  simp at h

/-- C4 (amended): generation is a placeholder on both paths —
`generate_rag_response` returns a hard-coded single retrieved context
(fixed text, score 0.95, page list [1]; only the two ids are fresh uuids)
and a placeholder message, consulting no vector store, and
`RAGService.generate` returns the fixed template
`"This is a simulated RAG response for the query: " ++ query ++ ...`
without invoking the base model (its result is the same under any two
environments and generation configs once the model row exists) — but
`RAGService.retrieve` is not a placeholder: it forwards the query to the
(absent) vector store's search and converts the hits, as the
counterexample shows. -/
theorem rag_placeholders_amended (st : Registry) (aid cid : String)
    (rc gc : Option ConfigDict) (now : ℕ) (u1 u2 : String) (entry : AgentRuntime)
    (env₁ env₂ : RagEnv) (mid₁ mid₂ q : String) (contexts : List RetrievedContext)
    (gc₁ gc₂ : Option (List (String × ℚ))) (m₁ m₂ : RagModelRec)
    (hget : dictGet st aid = some entry)
    (hconv : dictContains entry.active_conversations cid = true)
    (hrag : entry.agent.agent_type = AgentType.rag)
    (hm₁ : env₁.ragModels mid₁ = some m₁) (hm₂ : env₂.ragModels mid₂ = some m₂) :
    (∃ msg ctxs,
        (AgentManager.generate_rag_response st aid cid rc gc now u1 u2).1 = some (msg, ctxs) ∧
        ctxs.map (fun c => (c.text, c.score, c.page_numbers))
          = [("This is a placeholder retrieved context.", (95 / 100 : ℚ), some [(1 : ℤ)])] ∧
        ctxs.map (fun c => (c.document_id, c.document_name, c.chunk_id))
          = [(u1, "Sample Document", u2)] ∧
        msg.role = "assistant" ∧
        msg.content = AgentManager.placeholderRagContent entry.agent.name entry.agent.id) ∧
    RAGService.generate env₁ mid₁ q contexts gc₁
        = Except.ok (RAGService.simulatedResponse q contexts) ∧
    RAGService.generate env₁ mid₁ q contexts gc₁ = RAGService.generate env₂ mid₂ q contexts gc₂ ∧
    (∃ rest, RAGService.simulatedResponse q contexts
        = "This is a simulated RAG response for the query: " ++ q ++ rest) := by
  have hgen : ∀ (env : RagEnv) (mid : String) (m : RagModelRec)
      (gcx : Option (List (String × ℚ))), env.ragModels mid = some m →
      RAGService.generate env mid q contexts gcx
        = Except.ok (RAGService.simulatedResponse q contexts) := by
    intro env mid m gcx hm
    unfold RAGService.generate
    rw [hm]
  refine ⟨?_, hgen env₁ mid₁ m₁ gc₁ hm₁, ?_, ?_⟩
  · have hr : (AgentManager.generate_rag_response st aid cid rc gc now u1 u2).1
        = some ({ role := "assistant",
                  content := AgentManager.placeholderRagContent entry.agent.name entry.agent.id,
                  timestamp := some now },
                [AgentManager.placeholderContext u1 u2]) := by
      unfold AgentManager.generate_rag_response
      rw [hget]
      simp [hconv, hrag]
    exact ⟨_, _, hr, rfl, rfl, rfl, rfl⟩
  · rw [hgen env₁ mid₁ m₁ gc₁ hm₁, hgen env₂ mid₂ m₂ gc₂ hm₂]
  · refine ⟨"\n\n" ++ "Based on the retrieved contexts:\n" ++ RAGService.contextLines contexts, ?_⟩
    unfold RAGService.simulatedResponse
    simp [String.append_assoc]

/-- A deployed RAG agent for the C4 witness. -/
def ragAgentEx : Agent :=
  { id := "agent-9", name := "Rag", agent_type := AgentType.rag,
    model_id := "m1", status := AgentStatus.deployed, config := [] }

def ragRtEx : AgentRuntime :=
  { agent := ragAgentEx, model_info := { model_id := "m1", model_type := "rag", loaded_at := 0 },
    last_used := 0, active_conversations := [("c9", convEmptyEx)] }

def ragRegEx : Registry := [("agent-9", ragRtEx)]

def ctxsEx : List RetrievedContext :=
  [{ text := "ctx", document_id := "d1", document_name := "Doc", chunk_id := "c1",
     score := 1 / 4, page_numbers := none }]

theorem rag_placeholders_amended_witness :
    (dictGet ragRegEx "agent-9" = some ragRtEx ∧
     dictContains ragRtEx.active_conversations "c9" = true ∧
     ragRtEx.agent.agent_type = AgentType.rag ∧
     ragEnvEmpty.ragModels "m1" = some ragModelEx ∧
     ragEnvHit.ragModels "m1" = some ragModelEx) ∧
    ((∃ msg ctxs,
        (AgentManager.generate_rag_response ragRegEx "agent-9" "c9" none none 3 "u1" "u2").1
          = some (msg, ctxs) ∧
        ctxs.map (fun c => (c.text, c.score, c.page_numbers))
          = [("This is a placeholder retrieved context.", (95 / 100 : ℚ), some [(1 : ℤ)])] ∧
        ctxs.map (fun c => (c.document_id, c.document_name, c.chunk_id))
          = [("u1", "Sample Document", "u2")] ∧
        msg.role = "assistant" ∧
        msg.content = AgentManager.placeholderRagContent ragRtEx.agent.name ragRtEx.agent.id) ∧
     RAGService.generate ragEnvEmpty "m1" "what" ctxsEx none
        = Except.ok (RAGService.simulatedResponse "what" ctxsEx) ∧
     RAGService.generate ragEnvEmpty "m1" "what" ctxsEx none
        = RAGService.generate ragEnvHit "m1" "what" ctxsEx (some [("temperature", 1 / 2)]) ∧
     (∃ rest, RAGService.simulatedResponse "what" ctxsEx
        = "This is a simulated RAG response for the query: " ++ "what" ++ rest)) :=
  ⟨⟨rfl, rfl, rfl, rfl, rfl⟩,
   rag_placeholders_amended ragRegEx "agent-9" "c9" none none 3 "u1" "u2" ragRtEx
     ragEnvEmpty ragEnvHit "m1" "m1" "what" ctxsEx none (some [("temperature", 1 / 2)])
     ragModelEx ragModelEx rfl rfl rfl rfl rfl⟩

/-! ### Claims about the training manager -/

/-- When the stop event is never set, the training loop visits every step,
issues one progress write per step, and reports no early exit. -/
theorem loraLoop_no_stop (stop : ℕ → Bool) (lr : ℚ) (hstop : ∀ s, stop s = false) :
    ∀ (l : List ℕ) (db : TrainingDb),
      TrainingManager.loraLoop stop lr l db
        = (l.foldl (fun d s => update_training_job d (TrainingManager.progressWrite lr s)) db,
           l.map (TrainingManager.progressWrite lr), false) := by
  intro l
  induction l with
  | nil => intro db; rfl
  | cons s rest ih =>
    intro db
    simp only [TrainingManager.loraLoop, hstop s, List.foldl_cons, List.map_cons, ih]
    simp

/-- The fabricated progress value at a step is the step count itself. -/
theorem progressAt_eq (s : ℕ) : TrainingManager.progressAt s = (s : ℚ) := by
  unfold TrainingManager.progressAt
  exact div_mul_cancel₀ _ (by norm_num)

/-- C1: every training type runs the identical simulated thread body; with
the model row present and the stop event never set, the run issues
exactly the writes of the 101-step loop (steps 0 through 100), each
carrying progress `step/100*100` and loss `1 - (progress/100)*0.9`, ends
with job status COMPLETED at progress 100.0, and the sequence of written
progress values is monotonically nondecreasing from 0.0 to 100.0.  (The
per-iteration `time.sleep(0.1)` only consumes wall-clock time and is not
part of the state model.) -/
theorem training_sim_loop_uniform (tt : TrainingType) (stop : ℕ → Bool)
    (hyper : List (String × ℚ)) (db : TrainingDb) (hstop : ∀ s, stop s = false) :
    TrainingManager.run_training_thread tt stop hyper true db
        = TrainingManager.run_lora_training stop hyper true db ∧
    (TrainingManager.run_lora_training stop hyper true db).db.job.status
        = TrainingStatus.completed ∧
    (TrainingManager.run_lora_training stop hyper true db).db.job.progress = 100 ∧
    ((TrainingManager.run_lora_training stop hyper true db).trace.filterMap
        (fun w => w.metrics.map (fun m => m.step))) = List.range 101 ∧
    ((TrainingManager.run_lora_training stop hyper true db).trace.filterMap
        (fun w => w.progress.bind (fun p => w.metrics.map (fun m => (p, m.loss)))))
      = (List.range 101).map
          (fun s => ((s : ℚ) / 100 * 100, 1 - ((s : ℚ) / 100 * 100 / 100) * (9 / 10))) ∧
    List.Pairwise (· ≤ ·)
      ((TrainingManager.run_lora_training stop hyper true db).trace.filterMap
        (fun w => w.progress)) ∧
    ((TrainingManager.run_lora_training stop hyper true db).trace.filterMap
        (fun w => w.progress)).head? = some 0 ∧
    ((TrainingManager.run_lora_training stop hyper true db).trace.filterMap
        (fun w => w.progress)).getLast? = some 100 := by
  have hloop := loraLoop_no_stop stop ((dictGet hyper "learning_rate").getD (1 / 20000)) hstop
  have hrun : TrainingManager.run_lora_training stop hyper true db
      = { db := update_training_job
            ((List.range 101).foldl
              (fun d s => update_training_job d
                (TrainingManager.progressWrite ((dictGet hyper "learning_rate").getD (1 / 20000)) s))
              (update_training_job db
                { status := some TrainingStatus.running, progress := some 0, metrics := none,
                  error_message := none }))
            { status := some TrainingStatus.completed, progress := some 100, metrics := none,
              error_message := none },
          trace := { status := some TrainingStatus.running, progress := some 0, metrics := none,
                     error_message := none }
            :: (List.range 101).map
                (TrainingManager.progressWrite ((dictGet hyper "learning_rate").getD (1 / 20000)))
            ++ [{ status := some TrainingStatus.completed, progress := some 100, metrics := none,
                  error_message := none }] } := by
    unfold TrainingManager.run_lora_training
    simp only [hloop, Bool.not_true]
    rfl
  refine ⟨?_, ?_, ?_, ?_, ?_, ?_, ?_, ?_⟩
  · cases tt <;> rfl
  · rw [hrun]
    rfl
  · rw [hrun]
    rfl
  · rw [hrun]
    simp only [List.filterMap_cons, List.filterMap_append, List.filterMap_map]
    simp only [Option.map_none, List.filterMap_nil]
    show (List.range 101).filterMap
        (fun s => some (TrainingManager.metricsAt _ s).step) ++ [] = List.range 101
    rw [filterMap_some_eq_map, List.append_nil]
    exact List.map_id _
  · rw [hrun]
    simp only [List.filterMap_cons, List.filterMap_append, List.filterMap_map]
    show (List.range 101).filterMap
        (fun s => some (TrainingManager.progressAt s, (TrainingManager.metricsAt _ s).loss))
          ++ [] = _
    rw [filterMap_some_eq_map, List.append_nil]
    rfl
  · rw [hrun]
    simp only [List.filterMap_cons, List.filterMap_append, List.filterMap_map]
    show List.Pairwise (· ≤ ·)
        ((0 : ℚ) :: ((List.range 101).filterMap
            (fun s => some (TrainingManager.progressAt s)) ++ [(100 : ℚ)]))
    rw [filterMap_some_eq_map]
    have hmap : (List.range 101).map (fun s => TrainingManager.progressAt s)
        = (List.range 101).map (fun s : ℕ => (s : ℚ)) := by
      simp [progressAt_eq]
    rw [hmap]
    rw [List.pairwise_cons]
    constructor
    · intro b hb
      rcases List.mem_append.mp hb with h | h
      · obtain ⟨s, _, rfl⟩ := List.mem_map.mp h
        positivity
      · rw [List.mem_singleton] at h
        subst h
        norm_num
    · rw [List.pairwise_append]
      refine ⟨?_, List.pairwise_singleton _ _, ?_⟩
      · exact (List.pairwise_lt_range 101).map _
          (fun a b hab => by exact_mod_cast hab.le)
      · intro a ha b hb
        obtain ⟨s, hs, rfl⟩ := List.mem_map.mp ha
        rw [List.mem_singleton] at hb
        subst hb
        have h100 : s ≤ 100 := Nat.lt_succ_iff.mp (List.mem_range.mp hs)
        exact_mod_cast h100
  · rw [hrun]
    simp only [List.filterMap_cons]
    rfl
  · rw [hrun]
    simp only [List.filterMap_cons, List.filterMap_append, List.filterMap_map]
    show ((0 : ℚ) :: ((List.range 101).filterMap
        (fun s => some (TrainingManager.progressAt s)) ++ [(100 : ℚ)])).getLast? = some 100
    rw [← List.cons_append, List.getLast?_concat]

def stopNever : ℕ → Bool := fun _ => false

def trainDbEx : TrainingDb :=
  { job := { status := TrainingStatus.pending, progress := 0, metrics := none,
             error_message := none },
    modelStatus := ModelStatus.created }

theorem training_sim_loop_uniform_witness :
    (∀ s, stopNever s = false) ∧
    (TrainingManager.run_training_thread TrainingType.qlora stopNever [] true trainDbEx
        = TrainingManager.run_lora_training stopNever [] true trainDbEx ∧
     (TrainingManager.run_lora_training stopNever [] true trainDbEx).db.job.status
        = TrainingStatus.completed ∧
     (TrainingManager.run_lora_training stopNever [] true trainDbEx).db.job.progress = 100 ∧
     ((TrainingManager.run_lora_training stopNever [] true trainDbEx).trace.filterMap
        (fun w => w.metrics.map (fun m => m.step))) = List.range 101 ∧
     ((TrainingManager.run_lora_training stopNever [] true trainDbEx).trace.filterMap
        (fun w => w.progress.bind (fun p => w.metrics.map (fun m => (p, m.loss)))))
       = (List.range 101).map
           (fun s => ((s : ℚ) / 100 * 100, 1 - ((s : ℚ) / 100 * 100 / 100) * (9 / 10))) ∧
     List.Pairwise (· ≤ ·)
       ((TrainingManager.run_lora_training stopNever [] true trainDbEx).trace.filterMap
         (fun w => w.progress)) ∧
     ((TrainingManager.run_lora_training stopNever [] true trainDbEx).trace.filterMap
         (fun w => w.progress)).head? = some 0 ∧
     ((TrainingManager.run_lora_training stopNever [] true trainDbEx).trace.filterMap
         (fun w => w.progress)).getLast? = some 100) :=
  ⟨fun _ => rfl,
   training_sim_loop_uniform TrainingType.qlora stopNever [] trainDbEx (fun _ => rfl)⟩
